import Mathlib

/-!
Verification of the terminalMCP repository (src/mcp_server.py, src/frp_manager.py).

This file shallowly embeds the data model and operations of the repository:
the five MCP Command Gateway tools (run_terminal, list_files, read_file,
upload_file, download_file) from src/mcp_server.py, and the FRP tunnel
supervisor (FRPManager.download_frpc / stop / cleanup) from src/frp_manager.py.

External collaborators (the OS process launcher, shlex tokenizer, the utf-8
codec, path normalisation) are modelled as explicit oracle parameters, so
that every theorem quantifies over their behaviour.  Python dictionaries
returned by the tools are modelled as association lists, and the filesystem
as a partial map from path strings to entries (regular file with a byte list,
or directory).
-/

/-- JSON-like values appearing in the result dictionaries of the tools:
strings, integers, and lists of strings (`list_files` output). -/
inductive JVal where
  | s (v : String)
  | i (v : Int)
  | ls (v : List String)
deriving DecidableEq

/-- A Python result dictionary, modelled as an association list
(the tools build their dicts with the `status` key first). -/
abbrev MCPDict := List (String × JVal)

/-- Value of the `status` key of a result dictionary (first occurrence). -/
def statusOf : MCPDict → Option JVal
  | [] => none
  | (k, v) :: rest => if k = "status" then some v else statusOf rest

/-- The error dictionary every tool returns from its exception handlers:
`status: error` plus the stringified exception. -/
def mkError (e : String) : MCPDict :=
  [("status", JVal.s "error"), ("error", JVal.s e)]

/-- A result dictionary is status-tagged when its `status` field is the
string `success` or the string `error`. -/
def isTagged (d : MCPDict) : Prop :=
  statusOf d = some (JVal.s "success") ∨ statusOf d = some (JVal.s "error")

theorem statusOf_cons (v : JVal) (rest : MCPDict) :
    statusOf (("status", v) :: rest) = some v := by
  simp [statusOf]

theorem statusOf_mkError (e : String) :
    statusOf (mkError e) = some (JVal.s "error") := by
  simp [mkError, statusOf]

/-! ### Base64 (RFC 4648 standard alphabet, as used by Python's `base64`
module: `b64encode` on arbitrary bytes, `b64decode` on well-padded input).
Bytes are modelled as natural numbers below 256. -/

/-- The 64-character standard base64 alphabet. -/
def b64Chars : List Char :=
  "ABCDEFGHIJKLMNOPQRSTUVWXYZabcdefghijklmnopqrstuvwxyz0123456789+/".data

/-- Character for a six-bit group. -/
def b64Char (n : Nat) : Char := b64Chars.getD n 'A'

def b64IndexAux : List Char → Char → Nat → Option Nat
  | [], _, _ => none
  | a :: as, c, k => if a = c then some k else b64IndexAux as c (k + 1)

/-- Index of a character in the base64 alphabet (none for `=` and
any character outside the alphabet). -/
def b64Index (c : Char) : Option Nat := b64IndexAux b64Chars c 0

/-- Model of `base64.b64encode`: encode a byte list into base64 characters,
three input bytes per four output characters, `=`-padded. -/
def b64encode : List Nat → List Char
  | b0 :: b1 :: b2 :: rest =>
    b64Char (b0 / 4) :: b64Char ((b0 % 4) * 16 + b1 / 16) ::
    b64Char ((b1 % 16) * 4 + b2 / 64) :: b64Char (b2 % 64) :: b64encode rest
  | [b0, b1] =>
    [b64Char (b0 / 4), b64Char ((b0 % 4) * 16 + b1 / 16), b64Char ((b1 % 16) * 4), '=']
  | [b0] =>
    [b64Char (b0 / 4), b64Char ((b0 % 4) * 16), '=', '=']
  | [] => []

/-- Model of `base64.b64decode` on standard, correctly padded input: groups of four
characters decode to three bytes, a final `xx==` group to one byte and a
final `xxx=` group to two bytes; anything else fails (models the
`binascii.Error` exception as `none`). -/
def b64decode : List Char → Option (List Nat)
  | c0 :: c1 :: c2 :: c3 :: rest =>
    match b64Index c0, b64Index c1 with
    | some s0, some s1 =>
      if c2 = '=' then
        if c3 = '=' then
          if rest = [] then some [s0 * 4 + s1 / 16] else none
        else none
      else
        match b64Index c2 with
        | some s2 =>
          if c3 = '=' then
            if rest = [] then some [s0 * 4 + s1 / 16, (s1 % 16) * 16 + s2 / 4] else none
          else
            match b64Index c3 with
            | some s3 =>
              match b64decode rest with
              | some bs =>
                some ((s0 * 4 + s1 / 16) :: ((s1 % 16) * 16 + s2 / 4) ::
                      ((s2 % 4) * 64 + s3) :: bs)
              | none => none
            | none => none
        | none => none
    | _, _ => none
  | [] => some []
  | _ => none

theorem b64Index_b64Char : ∀ n, n < 64 → b64Index (b64Char n) = some n := by decide

theorem b64Char_ne_pad : ∀ n, n < 64 → b64Char n ≠ '=' := by decide

/-- Round trip: decoding an encoded byte list (all bytes below 256)
recovers the list exactly. -/
theorem b64decode_b64encode : ∀ bs : List Nat, (∀ b ∈ bs, b < 256) →
    b64decode (b64encode bs) = some bs
  | [], _ => rfl
  | [b0], h => by
    have h0 : b0 < 256 := h b0 (by simp)
    have e0 := b64Index_b64Char (b0 / 4) (by omega)
    have e1 := b64Index_b64Char ((b0 % 4) * 16) (by omega)
    simp [b64encode, b64decode, e0, e1]
    omega
  | [b0, b1], h => by
    have h0 : b0 < 256 := h b0 (by simp)
    have h1 : b1 < 256 := h b1 (by simp)
    have e0 := b64Index_b64Char (b0 / 4) (by omega)
    have e1 := b64Index_b64Char ((b0 % 4) * 16 + b1 / 16) (by omega)
    have e2 := b64Index_b64Char ((b1 % 16) * 4) (by omega)
    have n2 := b64Char_ne_pad ((b1 % 16) * 4) (by omega)
    simp [b64encode, b64decode, e0, e1, e2, n2]
    omega
  | b0 :: b1 :: b2 :: rest, h => by
    have h0 : b0 < 256 := h b0 (by simp)
    have h1 : b1 < 256 := h b1 (by simp)
    have h2 : b2 < 256 := h b2 (by simp)
    have hrest : ∀ b ∈ rest, b < 256 := fun b hb => h b (by simp [hb])
    have ih := b64decode_b64encode rest hrest
    have e0 := b64Index_b64Char (b0 / 4) (by omega)
    have e1 := b64Index_b64Char ((b0 % 4) * 16 + b1 / 16) (by omega)
    have e2 := b64Index_b64Char ((b1 % 16) * 4 + b2 / 64) (by omega)
    have e3 := b64Index_b64Char (b2 % 64) (by omega)
    have n2 := b64Char_ne_pad ((b1 % 16) * 4 + b2 / 64) (by omega)
    have n3 := b64Char_ne_pad (b2 % 64) (by omega)
    have a0 : b0 / 4 * 4 + ((b0 % 4) * 16 + b1 / 16) / 16 = b0 := by omega
    have a1 : ((b0 % 4) * 16 + b1 / 16) % 16 * 16 + ((b1 % 16) * 4 + b2 / 64) / 4 = b1 := by
      omega
    have a2 : ((b1 % 16) * 4 + b2 / 64) % 4 * 64 + b2 % 64 = b2 := by omega
    simp [b64encode, b64decode, e0, e1, e2, e3, n2, n3, ih, a0, a1, a2]

/-! ### Filesystem and path model -/

/-- A filesystem entry: a regular file holding bytes, or a directory. -/
inductive Entry where
  | file (bytes : List Nat)
  | dir
deriving DecidableEq

/-- The filesystem: a partial map from path strings to entries.
`none` models `os.path.exists` returning false. -/
abbrev FS := String → Option Entry

/-- Point update of the filesystem. -/
def updateFS (fs : FS) (p : String) (e : Entry) : FS :=
  fun q => if q = p then some e else fs q

/-- Oracle for the `os.path` helpers used by the tools
(`os.path.abspath`, `os.path.dirname`); their behaviour depends on the
host OS and working directory, which are outside the embedded program. -/
structure PathEnv where
  abspath : String → String
  dirname : String → String

/-! ### Command Gateway operations (src/mcp_server.py) -/

/-- Outcome of `subprocess.run(args, capture_output=True, text=True,
timeout=timeout)`: normal completion with exit code and captured streams,
`subprocess.TimeoutExpired` (the launcher kills the child), or any other
exception (e.g. `FileNotFoundError`), carrying its string form. -/
inductive ExecOutcome where
  | completed (exitCode : Int) (stdout stderr : String)
  | timedOut
  | failed (msg : String)

/-- Oracle for the external collaborators of `run_terminal`:
`shlex.split` (which raises `ValueError` on malformed quoting, modelled as
`Except.error` with the message) and the process launcher. -/
structure TermEnv where
  shlexSplit : String → Except String (List String)
  run : List String → Int → ExecOutcome

/-- Model of `run_terminal` (src/mcp_server.py:68): tokenize the command with
shell-quoting rules, run it with the wall-clock timeout, and return a
status-tagged dictionary; `TimeoutExpired` is caught before the generic
handler and mapped to a fixed timeout message with no stdout/stderr. -/
def run_terminal (env : TermEnv) (command : String) (timeout : Int) : MCPDict :=
  match env.shlexSplit command with
  | .error e => mkError e
  | .ok args =>
    match env.run args timeout with
    | .completed code out err =>
      [("status", JVal.s "success"), ("exit_code", JVal.i code),
       ("stdout", JVal.s out), ("stderr", JVal.s err)]
    | .timedOut => mkError ("Command timed out after " ++ toString timeout ++ " seconds")
    | .failed msg => mkError msg

/-- Model of `str.splitlines` on the common line terminators (`\r\n`, `\r`, `\n`). -/
def pySplitLinesList : List Char → List (List Char)
  | [] => []
  | '\r' :: '\n' :: cs => [] :: pySplitLinesList cs
  | '\r' :: cs => [] :: pySplitLinesList cs
  | '\n' :: cs => [] :: pySplitLinesList cs
  | c :: cs =>
    match pySplitLinesList cs with
    | [] => [[c]]
    | l :: ls => (c :: l) :: ls

def pySplitLines (s : String) : List String :=
  (pySplitLinesList s.data).map String.mk

/-- Oracle for `list_files`: the host platform test and the listing
subprocess (`cmd /c dir` or `ls -la`), which either completes with
(returncode, stdout, stderr) or raises. -/
structure ListEnv where
  isWindows : Bool
  run : List String → Except String (Int × String × String)

/-- Model of `list_files` (src/mcp_server.py:109): run the native listing command
and return its stdout split into lines on success (exit code 0), its
stderr as an error otherwise. -/
def list_files (env : ListEnv) (path : String) : MCPDict :=
  match env.run (if env.isWindows then ["cmd", "/c", "dir", path]
                 else ["ls", "-la", path]) with
  | .error e => mkError e
  | .ok (code, out, err) =>
    if code = 0 then
      [("status", JVal.s "success"), ("output", JVal.ls (pySplitLines out))]
    else mkError err

/-- File-line splitting as Python text-file iteration yields lines: each
line keeps its trailing newline; the final line may lack one. -/
def linesKeep : List Char → List (List Char)
  | [] => []
  | c :: cs =>
    if c = '\n' then ['\n'] :: linesKeep cs
    else
      match linesKeep cs with
      | [] => [[c]]
      | l :: ls => (c :: l) :: ls

theorem linesKeep_flatten : ∀ cs : List Char, (linesKeep cs).flatten = cs
  | [] => rfl
  | c :: cs => by
    have ih := linesKeep_flatten cs
    by_cases hc : c = '\n'
    · subst hc
      simp [linesKeep, ih]
    · simp only [linesKeep, if_neg hc]
      cases hl : linesKeep cs with
      | nil =>
        rw [hl] at ih
        simp at ih
        simp [← ih]
      | cons l ls =>
        rw [hl] at ih
        simp only [List.flatten_cons] at ih ⊢
        simp [ih]

/-- Model of `read_file` (src/mcp_server.py:155): open the file as utf-8 text; with
a truthy `max_lines` collect at most that many lines, otherwise read the
whole file.  `utf8` is the codec oracle: decoding the raw bytes to text or
raising (`UnicodeDecodeError`, modelled with its message).  A missing path
or a directory raises `OSError`, caught by the generic handler. -/
def read_file (utf8 : List Nat → Except String String) (fs : FS)
    (file_path : String) (max_lines : Option Int) : MCPDict :=
  match fs file_path with
  | none => mkError ("No such file or directory: " ++ file_path)
  | some .dir => mkError ("Is a directory: " ++ file_path)
  | some (.file bytes) =>
    match utf8 bytes with
    | .error e => mkError e
    | .ok text =>
      let content : String :=
        match max_lines with
        | none => text
        | some m =>
          if m = 0 then text
          else String.mk ((linesKeep text.data).take m.toNat).flatten
      [("status", JVal.s "success"), ("content", JVal.s content)]

/-- The `os.makedirs` step of `upload_file`: create the parent directory
(`os.path.dirname`) when the dirname is non-empty and does not exist. -/
def ensureParent (pe : PathEnv) (fs : FS) (p : String) : FS :=
  if pe.dirname p ≠ "" ∧ fs (pe.dirname p) = none then
    updateFS fs (pe.dirname p) .dir
  else fs

/-- Model of `upload_file` (src/mcp_server.py:197): refuse an existing destination
unless `overwrite`; then decode the base64 payload, create the parent
directory if missing, and write the decoded bytes, returning the absolute
path and byte count.  Opening a directory for writing raises, caught by
the generic handler. -/
def upload_file (pe : PathEnv) (fs : FS) (file_path content : String)
    (overwrite : Bool) : FS × MCPDict :=
  if (fs file_path).isSome ∧ overwrite = false then
    (fs, mkError ("File already exists: " ++ file_path ++
                  ". Set overwrite=True to replace it."))
  else
    match b64decode content.data with
    | none => (fs, mkError "Invalid base64 content")
    | some bytes =>
      if ensureParent pe fs file_path file_path = some .dir then
        (ensureParent pe fs file_path, mkError ("Is a directory: " ++ file_path))
      else
        (updateFS (ensureParent pe fs file_path) file_path (.file bytes),
         [("status", JVal.s "success"),
          ("message", JVal.s "File uploaded successfully"),
          ("file_path", JVal.s (pe.abspath file_path)),
          ("file_size", JVal.i (bytes.length : Int))])

/-- Model of `download_file` (src/mcp_server.py:257): missing path and non-file
path return errors; otherwise read the bytes and return them
base64-encoded with the absolute path and byte count. -/
def download_file (pe : PathEnv) (fs : FS) (file_path : String) : MCPDict :=
  match fs file_path with
  | none => mkError ("File not found: " ++ file_path)
  | some .dir => mkError ("Path is not a file: " ++ file_path)
  | some (.file bytes) =>
    [("status", JVal.s "success"),
     ("message", JVal.s "File downloaded successfully"),
     ("file_path", JVal.s (pe.abspath file_path)),
     ("file_size", JVal.i (bytes.length : Int)),
     ("content", JVal.s (String.mk (b64encode bytes)))]

/-! ### Tunnel supervisor (src/frp_manager.py, class FRPManager) -/

/-- The live `subprocess.Popen` child handle: `exited` models
`returncode is not None` (set once the process has been reaped by
`poll`/`wait`). -/
structure Proc where
  exited : Bool
deriving DecidableEq

/-- State of an `FRPManager` instance together with the on-disk artifacts
it owns.  `frpcExists` is presence of the cached binary at the fixed cache
path `work_dir/frpc`; `configExists` is presence of the `frpc.toml`
artifact; `downloads` is a ghost counter of `urllib.request.urlretrieve`
calls, used to state the no-network cache-hit property; `process` is the
child handle (`None` before `start`). -/
structure FRPManager where
  frpcExists : Bool
  downloads : Nat
  configExists : Bool
  process : Option Proc
deriving DecidableEq

/-- The fixed cache path of the frpc binary (`work_dir / "frpc"`). -/
def frpcPath : String := "frpc"

/-- Oracle for the external effects of `download_frpc`: whether the
platform is in the URL table, whether the download succeeds, and whether
the extracted archive contains the frpc executable. -/
structure AcqEnv where
  platformSupported : Bool
  downloadOk : Bool
  archiveHasFrpc : Bool

/-- Model of `FRPManager.download_frpc` (src/frp_manager.py:62): if the binary is
already at the fixed cache path return it immediately; otherwise resolve
the URL (raising on unsupported platforms), download the archive
(incrementing the ghost counter), extract it, copy the executable to the
cache path and set permissions.  Failures are raised as `RuntimeError`,
modelled as `Except.error`. -/
def FRPManager.download_frpc (m : FRPManager) (env : AcqEnv) :
    FRPManager × Except String String :=
  if m.frpcExists then (m, .ok frpcPath)
  else if env.platformSupported = false then (m, .error "unsupported platform")
  else
    let m1 : FRPManager := { m with downloads := m.downloads + 1 }
    if env.downloadOk = false then (m1, .error "download failed")
    else if env.archiveHasFrpc then ({ m1 with frpcExists := true }, .ok frpcPath)
    else (m1, .error "frpc not found after extraction")

/-- Oracle for `stop`: whether the live child exits within the 5-second
`wait` window after `terminate` is sent. -/
structure StopEnv where
  exitsWithinTimeout : Bool

/-- Model of `FRPManager.stop` (src/frp_manager.py:171): if a process handle is
recorded, send `terminate` (a no-op if the child already exited) and
`wait(timeout=5)`.  There is no force-kill: if the child does not exit
within the window, `wait` raises `subprocess.TimeoutExpired`, returned
here as the second component; `none` means normal return. -/
def FRPManager.stop (m : FRPManager) (env : StopEnv) : FRPManager × Option String :=
  match m.process with
  | none => (m, none)
  | some p =>
    if p.exited then (m, none)
    else if env.exitsWithinTimeout then
      ({ m with process := some { exited := true } }, none)
    else (m, some "subprocess.TimeoutExpired")

/-- Model of `FRPManager.cleanup` (src/frp_manager.py:178): call `stop`, then
unlink the configuration artifact if present.  An exception raised by
`stop` propagates out of `cleanup` before the unlink runs. -/
def FRPManager.cleanup (m : FRPManager) (env : StopEnv) : FRPManager × Option String :=
  match FRPManager.stop m env with
  | (m1, some e) => (m1, some e)
  | (m1, none) => ({ m1 with configExists := false }, none)

/-! ### Helper lemmas about result dictionaries -/

theorem isTagged_mkError (e : String) : isTagged (mkError e) :=
  Or.inr (statusOf_mkError e)

theorem isTagged_success (rest : MCPDict) :
    isTagged (("status", JVal.s "success") :: rest) :=
  Or.inl (statusOf_cons _ _)

/-- C2: every Command Gateway operation, on every input and every
behaviour of its external collaborators, returns a dictionary whose
`status` field is `success` or `error`; all internal failure branches are
mapped to the structured error payload, and (being total Lean functions)
none of the operations can fail to return. -/
theorem gateway_status_tagged
    (te : TermEnv) (cmd : String) (t : Int)
    (le : ListEnv) (lp : String)
    (utf8 : List Nat → Except String String) (fs₁ : FS) (rp : String) (ml : Option Int)
    (pe : PathEnv) (fs₂ fs₃ : FS) (up uc : String) (ow : Bool) (dp : String) :
    isTagged (run_terminal te cmd t) ∧
    isTagged (list_files le lp) ∧
    isTagged (read_file utf8 fs₁ rp ml) ∧
    isTagged (upload_file pe fs₂ up uc ow).2 ∧
    isTagged (download_file pe fs₃ dp) := by
  refine ⟨?_, ?_, ?_, ?_, ?_⟩
  · unfold run_terminal
    repeat' split
    all_goals first
      | exact isTagged_mkError _
      | exact isTagged_success _
  · unfold list_files
    repeat' split
    all_goals first
      | exact isTagged_mkError _
      | exact isTagged_success _
  · unfold read_file
    repeat' split
    all_goals first
      | exact isTagged_mkError _
      | exact isTagged_success _
  · unfold upload_file
    repeat' split
    all_goals first
      | exact isTagged_mkError _
      | exact isTagged_success _
  · unfold download_file
    repeat' split
    all_goals first
      | exact isTagged_mkError _
      | exact isTagged_success _

/-- If `upload_file` reports success, the destination path holds exactly
the decoded payload afterwards. -/
theorem upload_success_state (pe : PathEnv) (fs : FS) (p content : String)
    (bytes : List Nat) (ow : Bool)
    (hd : b64decode content.data = some bytes)
    (hs : statusOf (upload_file pe fs p content ow).2 = some (JVal.s "success")) :
    (upload_file pe fs p content ow).1 p = some (Entry.file bytes) := by
  simp only [upload_file, hd] at hs ⊢
  split at hs
  next h1 =>
    simp [statusOf, mkError] at hs
  next h1 =>
    rw [if_neg h1]
    split at hs
    next h2 =>
      simp [statusOf, mkError] at hs
    next h2 =>
      rw [if_neg h2]
      simp [updateFS]

/-- C1: for every byte sequence and every path, a successful
`upload_file(p, base64(bytes))` followed by `download_file(p)` yields a
success result whose `content` field base64-decodes to exactly the
original bytes. -/
theorem upload_download_roundtrip (pe : PathEnv) (fs : FS) (p : String)
    (bytes : List Nat) (ow : Bool)
    (hb : ∀ b ∈ bytes, b < 256)
    (hs : statusOf (upload_file pe fs p (String.mk (b64encode bytes)) ow).2
            = some (JVal.s "success")) :
    statusOf (download_file pe
        (upload_file pe fs p (String.mk (b64encode bytes)) ow).1 p)
      = some (JVal.s "success") ∧
    ∃ c : String,
      List.lookup "content"
          (download_file pe (upload_file pe fs p (String.mk (b64encode bytes)) ow).1 p)
        = some (JVal.s c) ∧
      b64decode c.data = some bytes := by
  have hd : b64decode (String.mk (b64encode bytes)).data = some bytes :=
    b64decode_b64encode bytes hb
  have hstate := upload_success_state pe fs p _ bytes ow hd hs
  unfold download_file
  rw [hstate]
  exact ⟨statusOf_cons _ _, String.mk (b64encode bytes), rfl, hd⟩

/-- Concrete instance of `upload_download_roundtrip`: an empty filesystem,
the non-UTF8 byte sequence `[0, 255, 10]`. -/
theorem upload_download_roundtrip_witness :
    (∀ b ∈ [0, 255, 10], b < 256) ∧
    statusOf (upload_file (PathEnv.mk id (fun _ => "")) (fun _ => none) "f"
        (String.mk (b64encode [0, 255, 10])) false).2 = some (JVal.s "success") ∧
    (statusOf (download_file (PathEnv.mk id (fun _ => ""))
        (upload_file (PathEnv.mk id (fun _ => "")) (fun _ => none) "f"
          (String.mk (b64encode [0, 255, 10])) false).1 "f") = some (JVal.s "success") ∧
     ∃ c : String,
       List.lookup "content"
           (download_file (PathEnv.mk id (fun _ => ""))
             (upload_file (PathEnv.mk id (fun _ => "")) (fun _ => none) "f"
               (String.mk (b64encode [0, 255, 10])) false).1 "f")
         = some (JVal.s c) ∧
       b64decode c.data = some [0, 255, 10]) :=
  ⟨by decide, by decide,
   upload_download_roundtrip (PathEnv.mk id (fun _ => "")) (fun _ => none) "f"
     [0, 255, 10] false (by decide) (by decide)⟩

/-- C5: uploading to a path holding an existing file with
`overwrite=false` returns the refusal error and leaves the filesystem
(hence the existing bytes) unchanged; with `overwrite=true` the file's
bytes are replaced by the decoded content. -/
theorem upload_overwrite_guard (pe : PathEnv) (fs : FS) (p content : String)
    (old : List Nat) (hf : fs p = some (Entry.file old)) :
    upload_file pe fs p content false =
      (fs, mkError ("File already exists: " ++ p ++
                    ". Set overwrite=True to replace it.")) ∧
    (∀ bytes : List Nat, b64decode content.data = some bytes →
       (upload_file pe fs p content true).1 p = some (Entry.file bytes) ∧
       statusOf (upload_file pe fs p content true).2 = some (JVal.s "success")) := by
  constructor
  · unfold upload_file
    rw [if_pos ⟨by simp [hf], rfl⟩]
  · intro bytes hd
    simp only [upload_file, hd]
    rw [if_neg (by simp)]
    have hne : ¬ ensureParent pe fs p p = some Entry.dir := by
      unfold ensureParent
      split
      next hc =>
        unfold updateFS
        by_cases hpd : p = pe.dirname p
        · rw [← hpd] at hc
          rw [hf] at hc
          exact absurd hc.2 (by simp)
        · simp [hpd, hf]
      next hc => simp [hf]
    rw [if_neg hne]
    exact ⟨by simp [updateFS], statusOf_cons _ _⟩

/-- Concrete instance of `upload_overwrite_guard`: a filesystem holding
`[7]` at path `f`, payload `AQI=` (base64 of `[1, 2]`). -/
theorem upload_overwrite_guard_witness :
    ((fun q => if q = "f" then some (Entry.file [7]) else none : FS) "f"
       = some (Entry.file [7])) ∧
    b64decode "AQI=".data = some [1, 2] ∧
    upload_file (PathEnv.mk id (fun _ => ""))
        (fun q => if q = "f" then some (Entry.file [7]) else none) "f" "AQI=" false =
      ((fun q => if q = "f" then some (Entry.file [7]) else none),
       mkError ("File already exists: " ++ "f" ++ ". Set overwrite=True to replace it.")) ∧
    (upload_file (PathEnv.mk id (fun _ => ""))
        (fun q => if q = "f" then some (Entry.file [7]) else none) "f" "AQI=" true).1 "f"
      = some (Entry.file [1, 2]) ∧
    statusOf (upload_file (PathEnv.mk id (fun _ => ""))
        (fun q => if q = "f" then some (Entry.file [7]) else none) "f" "AQI=" true).2
      = some (JVal.s "success") := by
  have h := upload_overwrite_guard (PathEnv.mk id (fun _ => ""))
    (fun q => if q = "f" then some (Entry.file [7]) else none) "f" "AQI=" [7] (by decide)
  exact ⟨by decide, by decide, h.1, (h.2 [1, 2] (by decide)).1, (h.2 [1, 2] (by decide)).2⟩

/-- C9: for an existing destination with `overwrite=false`, `upload_file`
returns the overwrite-refusal error (decided before the base64 payload is
even examined) and the filesystem is returned unchanged — for every
content string, valid base64 or not. -/
theorem upload_refusal_before_decode (pe : PathEnv) (fs : FS) (p content : String)
    (h : (fs p).isSome = true) :
    upload_file pe fs p content false =
      (fs, mkError ("File already exists: " ++ p ++
                    ". Set overwrite=True to replace it.")) := by
  unfold upload_file
  rw [if_pos ⟨h, rfl⟩]

/-- Concrete instance of `upload_refusal_before_decode`: the payload
`%%%` is not valid base64, yet the refusal error (not the encoding error)
is returned and nothing is written. -/
theorem upload_refusal_before_decode_witness :
    ((fun q => if q = "f" then some Entry.dir else none : FS) "f").isSome = true ∧
    b64decode "%%%".data = none ∧
    upload_file (PathEnv.mk id (fun _ => ""))
        (fun q => if q = "f" then some Entry.dir else none) "f" "%%%" false =
      ((fun q => if q = "f" then some Entry.dir else none),
       mkError ("File already exists: " ++ "f" ++ ". Set overwrite=True to replace it.")) :=
  ⟨by decide, by decide,
   upload_refusal_before_decode (PathEnv.mk id (fun _ => ""))
     (fun q => if q = "f" then some Entry.dir else none) "f" "%%%" (by decide)⟩

/-- C10: `read_file` with `max_lines = 0` behaves exactly like the
omitted limit (Python truthiness: `if max_lines:` is false for `0`),
returning the entire file content; for a positive limit `n` it returns
exactly the first `n` file lines (all lines when the file has fewer),
a prefix of the full content of length at most `n` lines. -/
theorem read_file_line_cap (utf8 : List Nat → Except String String) (fs : FS)
    (p : String) (bytes : List Nat) (text : String) (n : Int)
    (hf : fs p = some (Entry.file bytes)) (ht : utf8 bytes = .ok text)
    (hn : 0 < n) :
    read_file utf8 fs p (some 0) = read_file utf8 fs p none ∧
    read_file utf8 fs p none =
      [("status", JVal.s "success"), ("content", JVal.s text)] ∧
    read_file utf8 fs p (some n) =
      [("status", JVal.s "success"),
       ("content", JVal.s (String.mk ((linesKeep text.data).take n.toNat).flatten))] ∧
    ((linesKeep text.data).take n.toNat).length ≤ n.toNat ∧
    ((linesKeep text.data).take n.toNat).flatten ++
        ((linesKeep text.data).drop n.toNat).flatten = text.data := by
  refine ⟨?_, ?_, ?_, ?_, ?_⟩
  · simp [read_file, hf, ht]
  · simp [read_file, hf, ht]
  · simp only [read_file, hf, ht]
    rw [if_neg (by omega)]
  · rw [List.length_take]
    exact min_le_left _ _
  · rw [← List.flatten_append, List.take_append_drop, linesKeep_flatten]

/-- Concrete instance of `read_file_line_cap`: a three-line file
`a\nbb\nc`, limit 2. -/
theorem read_file_line_cap_witness :
    ((fun q => if q = "f" then some (Entry.file [97]) else none : FS) "f"
       = some (Entry.file [97])) ∧
    ((fun _ => Except.ok "a\nbb\nc" : List Nat → Except String String) [97]
       = Except.ok "a\nbb\nc") ∧
    (0 : Int) < 2 ∧
    (read_file (fun _ => Except.ok "a\nbb\nc")
        (fun q => if q = "f" then some (Entry.file [97]) else none) "f" (some 0) =
      read_file (fun _ => Except.ok "a\nbb\nc")
        (fun q => if q = "f" then some (Entry.file [97]) else none) "f" none ∧
     read_file (fun _ => Except.ok "a\nbb\nc")
        (fun q => if q = "f" then some (Entry.file [97]) else none) "f" none =
       [("status", JVal.s "success"), ("content", JVal.s "a\nbb\nc")] ∧
     read_file (fun _ => Except.ok "a\nbb\nc")
        (fun q => if q = "f" then some (Entry.file [97]) else none) "f" (some 2) =
       [("status", JVal.s "success"),
        ("content", JVal.s (String.mk ((linesKeep "a\nbb\nc".data).take (2 : Int).toNat).flatten))] ∧
     ((linesKeep "a\nbb\nc".data).take (2 : Int).toNat).length ≤ (2 : Int).toNat ∧
     ((linesKeep "a\nbb\nc".data).take (2 : Int).toNat).flatten ++
         ((linesKeep "a\nbb\nc".data).drop (2 : Int).toNat).flatten = "a\nbb\nc".data) :=
  ⟨by decide, rfl, by decide,
   read_file_line_cap (fun _ => Except.ok "a\nbb\nc")
     (fun q => if q = "f" then some (Entry.file [97]) else none) "f" [97] "a\nbb\nc" 2
     (by decide) rfl (by decide)⟩

/-- C6 counterexample: the claim asserts the timeout error is
distinguishable from generic failures, but a generic exception whose
string form equals the timeout message produces a result dictionary
identical to the timeout result — the two environments below differ only
in the launcher outcome (timeout versus generic failure), yet
`run_terminal` returns the very same dictionary. -/
theorem run_terminal_timeout_indistinguishable_cex :
    run_terminal (TermEnv.mk (fun _ => .ok ["sleep", "5"])
        (fun _ _ => ExecOutcome.timedOut)) "sleep 5" 30 =
      run_terminal (TermEnv.mk (fun _ => .ok ["sleep", "5"])
        (fun _ _ => ExecOutcome.failed "Command timed out after 30 seconds"))
        "sleep 5" 30 := by
  decide

/-- C6 (amended): when the launcher reports the wall-clock timeout
(`subprocess.TimeoutExpired`, the launcher having terminated the child),
`run_terminal` returns the error dictionary with the fixed timeout
message, and any partial stdout/stderr is discarded — the result carries
no `stdout` or `stderr` field at all.  The timeout is identified only by
this message inside the shared error shape, not by a structural subtype. -/
theorem run_terminal_timeout_result (te : TermEnv) (cmd : String) (t : Int)
    (args : List String) (hs : te.shlexSplit cmd = .ok args)
    (hr : te.run args t = .timedOut) :
    run_terminal te cmd t =
      mkError ("Command timed out after " ++ toString t ++ " seconds") ∧
    List.lookup "stdout" (run_terminal te cmd t) = none ∧
    List.lookup "stderr" (run_terminal te cmd t) = none := by
  have h1 : run_terminal te cmd t =
      mkError ("Command timed out after " ++ toString t ++ " seconds") := by
    simp only [run_terminal, hs, hr]
  refine ⟨h1, ?_, ?_⟩ <;> rw [h1] <;> rfl

/-- Concrete instance of `run_terminal_timeout_result`. -/
theorem run_terminal_timeout_result_witness :
    (TermEnv.mk (fun _ => .ok ["sleep", "5"])
        (fun _ _ => ExecOutcome.timedOut)).shlexSplit "sleep 5" = .ok ["sleep", "5"] ∧
    (TermEnv.mk (fun _ => .ok ["sleep", "5"])
        (fun _ _ => ExecOutcome.timedOut)).run ["sleep", "5"] 30 = .timedOut ∧
    (run_terminal (TermEnv.mk (fun _ => .ok ["sleep", "5"])
        (fun _ _ => ExecOutcome.timedOut)) "sleep 5" 30 =
      mkError ("Command timed out after " ++ toString (30 : Int) ++ " seconds") ∧
     List.lookup "stdout" (run_terminal (TermEnv.mk (fun _ => .ok ["sleep", "5"])
        (fun _ _ => ExecOutcome.timedOut)) "sleep 5" 30) = none ∧
     List.lookup "stderr" (run_terminal (TermEnv.mk (fun _ => .ok ["sleep", "5"])
        (fun _ _ => ExecOutcome.timedOut)) "sleep 5" 30) = none) :=
  ⟨rfl, rfl,
   run_terminal_timeout_result (TermEnv.mk (fun _ => .ok ["sleep", "5"])
     (fun _ _ => ExecOutcome.timedOut)) "sleep 5" 30 ["sleep", "5"] rfl rfl⟩

/-- C7: binary acquisition is idempotent.  If the binary already exists
at the fixed cache path, `download_frpc` returns that path immediately,
with the state (in particular the download counter) unchanged — no
network access.  Starting without the binary, any successful call
performs exactly one download, caches the binary, and a second call is a
pure cache hit returning the same path with no further download. -/
theorem download_frpc_idempotent (m m1 : FRPManager) (env env2 : AcqEnv)
    (pth : String) :
    (m.frpcExists = true →
       FRPManager.download_frpc m env = (m, .ok frpcPath)) ∧
    (m.frpcExists = false →
       FRPManager.download_frpc m env = (m1, .ok pth) →
       m1.downloads = m.downloads + 1 ∧ pth = frpcPath ∧ m1.frpcExists = true ∧
       FRPManager.download_frpc m1 env2 = (m1, .ok frpcPath)) := by
  constructor
  · intro h
    unfold FRPManager.download_frpc
    rw [if_pos h]
  · intro h0 hcall
    unfold FRPManager.download_frpc at hcall
    rw [if_neg (by simp [h0])] at hcall
    split at hcall
    · simp at hcall
    · split at hcall
      · simp at hcall
      · split at hcall
        · have hfst := congrArg Prod.fst hcall
          have hsnd := congrArg Prod.snd hcall
          simp only at hfst hsnd
          have hpth : pth = frpcPath := by
            cases hsnd
            rfl
          subst hpth
          rw [← hfst]
          refine ⟨rfl, rfl, rfl, ?_⟩
          unfold FRPManager.download_frpc
          rw [if_pos rfl]
        · simp at hcall

/-- Concrete instance of `download_frpc_idempotent`: a cache hit on an
existing binary, and a fresh acquisition followed by a cache hit with the
download counter at exactly one. -/
theorem download_frpc_idempotent_witness :
    FRPManager.download_frpc (FRPManager.mk true 0 false none)
        (AcqEnv.mk true true true)
      = (FRPManager.mk true 0 false none, .ok frpcPath) ∧
    ((FRPManager.mk true 1 false none).downloads
        = (FRPManager.mk false 0 false none).downloads + 1 ∧
     frpcPath = frpcPath ∧ (FRPManager.mk true 1 false none).frpcExists = true ∧
     FRPManager.download_frpc (FRPManager.mk true 1 false none)
        (AcqEnv.mk false false false)
       = (FRPManager.mk true 1 false none, .ok frpcPath)) :=
  ⟨(download_frpc_idempotent (FRPManager.mk true 0 false none)
      (FRPManager.mk true 0 false none) (AcqEnv.mk true true true)
      (AcqEnv.mk true true true) frpcPath).1 rfl,
   (download_frpc_idempotent (FRPManager.mk false 0 false none)
      (FRPManager.mk true 1 false none) (AcqEnv.mk true true true)
      (AcqEnv.mk false false false) frpcPath).2 rfl rfl⟩

/-- C8: `stop` is idempotent.  Invoking it with no recorded process
(including when none was ever started) is a no-op that returns normally
with the state unchanged; and after any `stop` that returned normally, a
second `stop` is likewise a no-op returning normally with the state
unchanged (the already-reaped child makes `terminate` a no-op and `wait`
return immediately). -/
theorem stop_idempotent (m m2 : FRPManager) (env env2 : StopEnv) :
    (m.process = none → FRPManager.stop m env = (m, none)) ∧
    (FRPManager.stop m env = (m2, none) →
       FRPManager.stop m2 env2 = (m2, none)) := by
  constructor
  · intro h
    simp [FRPManager.stop, h]
  · intro h
    unfold FRPManager.stop at h ⊢
    cases hp : m.process with
    | none =>
      simp only [hp] at h
      have hfst := congrArg Prod.fst h
      simp only at hfst
      rw [← hfst]
      simp [hp]
    | some p =>
      simp only [hp] at h
      by_cases he : p.exited = true
      · rw [if_pos he] at h
        have hfst := congrArg Prod.fst h
        simp only at hfst
        rw [← hfst]
        simp [hp, he]
      · rw [if_neg he] at h
        by_cases hw : env.exitsWithinTimeout = true
        · rw [if_pos hw] at h
          have hfst := congrArg Prod.fst h
          simp only at hfst
          rw [← hfst]
          simp
        · rw [if_neg hw] at h
          have hsnd := congrArg Prod.snd h
          simp at hsnd

/-- Concrete instance of `stop_idempotent`: stopping with no process, and
stopping again after a stop that reaped the child. -/
theorem stop_idempotent_witness :
    FRPManager.stop (FRPManager.mk true 0 true none) (StopEnv.mk true)
      = (FRPManager.mk true 0 true none, none) ∧
    FRPManager.stop (FRPManager.mk true 0 true (some (Proc.mk true))) (StopEnv.mk false)
      = (FRPManager.mk true 0 true (some (Proc.mk true)), none) :=
  ⟨(stop_idempotent (FRPManager.mk true 0 true none)
      (FRPManager.mk true 0 true none) (StopEnv.mk true) (StopEnv.mk true)).1 rfl,
   (stop_idempotent (FRPManager.mk true 0 true (some (Proc.mk false)))
      (FRPManager.mk true 0 true (some (Proc.mk true)))
      (StopEnv.mk true) (StopEnv.mk false)).2 rfl⟩

/-- C3 counterexample: `stop` invoked while the child is running, with a
child that ignores the terminate signal for the whole 5-second wait.
There is no force-kill step in the code: `wait(timeout=5)` raises
`subprocess.TimeoutExpired`, the exception propagates out of `stop`, and
the child process still exists — refuting the claim that `stop`
force-kills the child so that it no longer exists after `stop` returns. -/
theorem stop_no_force_kill_cex :
    FRPManager.stop (FRPManager.mk true 1 true (some (Proc.mk false)))
        (StopEnv.mk false)
      = (FRPManager.mk true 1 true (some (Proc.mk false)),
         some "subprocess.TimeoutExpired") ∧
    (FRPManager.stop (FRPManager.mk true 1 true (some (Proc.mk false)))
        (StopEnv.mk false)).1.process = some (Proc.mk false) := by
  constructor <;> rfl

/-- C3 (amended): when `stop` is invoked while the child process is
running, it sends the graceful-terminate signal and waits up to the
5-second timeout.  If the child exits within the timeout, `stop` returns
normally and the child no longer exists (the handle is recorded as
exited).  If it does not, no force-kill occurs: `wait` raises
`subprocess.TimeoutExpired`, which propagates out of `stop`, and the
child may still be running. -/
theorem stop_running_behaviour (m : FRPManager) (env : StopEnv) (p : Proc)
    (hp : m.process = some p) (hl : p.exited = false) :
    (env.exitsWithinTimeout = true →
       FRPManager.stop m env =
         ({ m with process := some (Proc.mk true) }, none)) ∧
    (env.exitsWithinTimeout = false →
       FRPManager.stop m env = (m, some "subprocess.TimeoutExpired")) := by
  simp only [FRPManager.stop, hp]
  constructor
  · intro hw
    rw [if_neg (by simp [hl]), if_pos hw]
  · intro hw
    rw [if_neg (by simp [hl]), if_neg (by simp [hw])]

/-- Concrete instance of `stop_running_behaviour`: a live child that
exits within the wait window. -/
theorem stop_running_behaviour_witness :
    (FRPManager.mk true 1 true (some (Proc.mk false))).process
        = some (Proc.mk false) ∧
    (Proc.mk false).exited = false ∧
    (((StopEnv.mk true).exitsWithinTimeout = true →
        FRPManager.stop (FRPManager.mk true 1 true (some (Proc.mk false)))
            (StopEnv.mk true)
          = ({ FRPManager.mk true 1 true (some (Proc.mk false)) with
                process := some (Proc.mk true) }, none)) ∧
     ((StopEnv.mk true).exitsWithinTimeout = false →
        FRPManager.stop (FRPManager.mk true 1 true (some (Proc.mk false)))
            (StopEnv.mk true)
          = (FRPManager.mk true 1 true (some (Proc.mk false)),
             some "subprocess.TimeoutExpired"))) :=
  ⟨rfl, rfl,
   stop_running_behaviour (FRPManager.mk true 1 true (some (Proc.mk false)))
     (StopEnv.mk true) (Proc.mk false) rfl rfl⟩

/-- C4 counterexample: `cleanup` invoked while the child is running and
does not exit within the 5-second wait.  `stop` raises
`subprocess.TimeoutExpired`, the exception propagates out of `cleanup`
before the unlink step, and the configuration artifact still exists —
refuting the claim that the artifact is removed regardless of how
termination proceeded. -/
theorem cleanup_leaves_config_on_timeout_cex :
    (FRPManager.cleanup (FRPManager.mk true 1 true (some (Proc.mk false)))
        (StopEnv.mk false)).2 = some "subprocess.TimeoutExpired" ∧
    (FRPManager.cleanup (FRPManager.mk true 1 true (some (Proc.mk false)))
        (StopEnv.mk false)).1.configExists = true := by
  constructor <;> rfl

/-- C4 (amended): whenever `stop` returns without raising (no recorded
process, an already-exited child, or a child that exits within the
5-second wait), `cleanup` removes the configuration artifact and returns
normally; when `stop` raises, the exception propagates out of `cleanup`
before the unlink runs. -/
theorem cleanup_removes_config (m : FRPManager) (env : StopEnv)
    (h : (FRPManager.stop m env).2 = none) :
    (FRPManager.cleanup m env).1.configExists = false ∧
    (FRPManager.cleanup m env).2 = none := by
  rcases hst : FRPManager.stop m env with ⟨m1, e⟩
  rw [hst] at h
  simp only at h
  subst h
  simp [FRPManager.cleanup, hst]

/-- Concrete instance of `cleanup_removes_config`: a run whose child
exits within the wait window. -/
theorem cleanup_removes_config_witness :
    (FRPManager.stop (FRPManager.mk true 1 true (some (Proc.mk false)))
        (StopEnv.mk true)).2 = none ∧
    ((FRPManager.cleanup (FRPManager.mk true 1 true (some (Proc.mk false)))
        (StopEnv.mk true)).1.configExists = false ∧
     (FRPManager.cleanup (FRPManager.mk true 1 true (some (Proc.mk false)))
        (StopEnv.mk true)).2 = none) :=
  ⟨rfl,
   cleanup_removes_config (FRPManager.mk true 1 true (some (Proc.mk false)))
     (StopEnv.mk true) rfl⟩
